import Mathlib

/-!
Verification development for the voice-recording transcription worker
(src/worker.ts).  The TypeScript source is shallowly embedded: JavaScript
numbers are modelled as rationals (ℚ), JavaScript strings as Lean strings
(with kernel-computable helpers over their character lists), fallible
asynchronous calls as explicit outcome values supplied by an environment
oracle (`World`), and thrown exceptions as `Except` values.  Every outbound
network call the handler performs is recorded in a `Call` trace so that
ordering/abort properties can be stated.
-/

/-! Generic JavaScript-semantics helpers. -/

/-- Models JavaScript string truthiness for an optional form field:
`null`/`undefined` and the empty string are falsy (as used in
`if (!recordingUrl)` and `if (recordingSid)` in worker.ts). -/
def jsTruthy : Option String → Option String
  | none => none
  | some s => if s = "" then none else some s

/-- Models the JavaScript idiom `params.get("X") || "default"`
(worker.ts lines 104-105): a missing or empty field yields the default. -/
def jsOrDefault (v : Option String) (dflt : String) : String :=
  match jsTruthy v with
  | none => dflt
  | some s => s

/-- Truncation toward zero, as used by the JavaScript `%` operator
on numbers. -/
def jsTrunc (q : ℚ) : Int := if 0 ≤ q then ⌊q⌋ else ⌈q⌉

/-- The JavaScript remainder `a % b`: `a - b * trunc(a / b)`. -/
def jsMod (a b : ℚ) : ℚ := a - b * (jsTrunc (a / b) : ℚ)

/-- JavaScript `Math.round`: round half toward positive infinity. -/
def mathRound (q : ℚ) : Int := ⌊q + 1/2⌋

/-- Rounding to 3 decimal places via `Math.round(x * 1000) / 1000`
(worker.ts lines 283-284). -/
def roundTo3 (q : ℚ) : ℚ := (mathRound (q * 1000) : ℚ) / 1000

/-- Drops leading and trailing whitespace from a character list. -/
def trimChars (l : List Char) : List Char :=
  ((l.dropWhile Char.isWhitespace).reverse.dropWhile Char.isWhitespace).reverse

/-- Models JavaScript `String.prototype.trim` (kernel-computable
replacement for the stuck-prone core `String.trim`). -/
def strTrim (s : String) : String := String.mk (trimChars s.data)

/-- String left-padding with the character 0 to length 2, modelling
`.toString().padStart(2, "0")` (worker.ts line 254). -/
def padTwo (s : String) : String :=
  if s.data.length < 2 then String.mk (List.replicate (2 - s.data.length) '0' ++ s.data) else s

/-- Decides whether `pat` occurs as a contiguous sublist of the second list. -/
def listContainsSub (pat : List Char) : List Char → Bool
  | [] => pat.isEmpty
  | c :: rest => pat.isPrefixOf (c :: rest) || listContainsSub pat rest

/-- Models `contentType.includes("audio")` (worker.ts line 168). -/
def containsAudio (s : String) : Bool := listContainsSub "audio".data s.data

/-!
The markdown-to-HTML converter, `markdownToHtml` (worker.ts lines 292-300):
four chained global regex replacements, then wrapping in a paragraph tag.
Each JavaScript `.replace(/re/g, sub)` scans left to right for the
leftmost match, substitutes, and resumes after the match.  The lazy
regex bodies `(.*?)` match the shortest possible content, and the
regex `.` does not match newline characters; both facts are reflected
in the close-scanners below.  The two emphasis passes are implemented
with a fuel argument (initialised to the input length, which bounds the
number of scanning steps since every step consumes at least one input
character); the out-of-fuel branch is unreachable for that fuel value.
-/

/-- Scans for the closing pair of stars of a lazy bold match
`/\*\*(.*?)\*\*/`; fails at a newline or the end of input. -/
def findCloseBold (acc : List Char) : List Char → Option (List Char × List Char)
  | '*' :: '*' :: rest => some (acc.reverse, rest)
  | '\n' :: _ => none
  | c :: rest => findCloseBold (c :: acc) rest
  | [] => none

/-- Scans for the closing star of a lazy italic match `/\*(.*?)\*/`. -/
def findCloseItal (acc : List Char) : List Char → Option (List Char × List Char)
  | '*' :: rest => some (acc.reverse, rest)
  | '\n' :: _ => none
  | c :: rest => findCloseItal (c :: acc) rest
  | [] => none

/-- Global replacement of bold spans: models
`.replace(/\*\*(.*?)\*\*/g, "<strong>$1</strong>")`. -/
def replaceBoldList : Nat → List Char → List Char
  | 0, l => l
  | Nat.succ fuel, l =>
    match l with
    | '*' :: '*' :: rest =>
      match findCloseBold [] rest with
      | some (content, after) =>
        "<strong>".data ++ content ++ "</strong>".data ++ replaceBoldList fuel after
      | none => '*' :: replaceBoldList fuel ('*' :: rest)
    | c :: rest => c :: replaceBoldList fuel rest
    | [] => []

/-- Global replacement of italic spans: models
`.replace(/\*(.*?)\*/g, "<em>$1</em>")`. -/
def replaceItalList : Nat → List Char → List Char
  | 0, l => l
  | Nat.succ fuel, l =>
    match l with
    | '*' :: rest =>
      match findCloseItal [] rest with
      | some (content, after) =>
        "<em>".data ++ content ++ "</em>".data ++ replaceItalList fuel after
      | none => '*' :: replaceItalList fuel rest
    | c :: rest => c :: replaceItalList fuel rest
    | [] => []

/-- Global replacement of double newlines: models
`.replace(/\n\n/g, "</p><p>")`. -/
def replaceParaBreakList : List Char → List Char
  | '\n' :: '\n' :: rest => "</p><p>".data ++ replaceParaBreakList rest
  | c :: rest => c :: replaceParaBreakList rest
  | [] => []

/-- Global replacement of single newlines: models
`.replace(/\n/g, "<br>")`. -/
def replaceLineBreakList : List Char → List Char
  | '\n' :: rest => "<br>".data ++ replaceLineBreakList rest
  | c :: rest => c :: replaceLineBreakList rest
  | [] => []

/-- First substitution of `markdownToHtml`: bold. -/
def replaceBold (s : String) : String := String.mk (replaceBoldList s.data.length s.data)

/-- Second substitution of `markdownToHtml`: italic. -/
def replaceItalic (s : String) : String := String.mk (replaceItalList s.data.length s.data)

/-- Third substitution of `markdownToHtml`: double newline to paragraph break. -/
def replaceParaBreaks (s : String) : String := String.mk (replaceParaBreakList s.data)

/-- Fourth substitution of `markdownToHtml`: single newline to line break. -/
def replaceLineBreaks (s : String) : String := String.mk (replaceLineBreakList s.data)

/-- The markdown-to-HTML converter `markdownToHtml` (worker.ts lines 292-300):
the four substitutions in their fixed order, wrapped in one paragraph tag. -/
def markdownToHtml (markdown : String) : String :=
  "<p>" ++ replaceLineBreaks (replaceParaBreaks (replaceItalic (replaceBold markdown))) ++ "</p>"

/-!
Deepgram response data model (the shape consumed by
`analyzeDeepgramResponse`, worker.ts lines 226-287).  Fields accessed with
optional chaining or nullish/`||` defaults in the source are modelled as
`Option` fields.  Speaker ids are the non-negative integer indices Deepgram
assigns to diarized speakers.
-/

/-- One entry of the flat word list: only the confidence is consumed
(`w.confidence || 0`, worker.ts line 263). -/
structure DGWord where
  confidence : Option ℚ
deriving DecidableEq

/-- One sentence of a paragraph, with its text and start time in seconds. -/
structure DGSentence where
  text : String
  start : ℚ
deriving DecidableEq

/-- One diarized paragraph: `paragraph.speaker` may be unset (defaulted to 0
via the nullish coalescing at worker.ts line 245), `paragraph.sentences`
may be absent (defaulted to the empty list at line 244). -/
structure DGParagraph where
  speaker : Option Nat
  sentences : Option (List DGSentence)
deriving DecidableEq

/-- One alternative: the flat word list and the paragraph list.  The
source reads `alternatives[0].paragraphs?.paragraphs || []`; the
intermediate wrapper object is collapsed into the single optional field. -/
structure DGAlternative where
  words : Option (List DGWord)
  paragraphs : Option (List DGParagraph)
deriving DecidableEq

/-- One channel with its alternatives list (optional chain at line 236). -/
structure DGChannel where
  alternatives : Option (List DGAlternative)
deriving DecidableEq

/-- The provider response: `apiResult.results?.channels || []` collapses the
optional `results` wrapper into a plain channel list. -/
structure DGResponse where
  channels : List DGChannel
deriving DecidableEq

/-- The interface DeepgramTranscript of worker.ts lines 30-36: all fields
optional.  The no-channel early return populates only the two text fields. -/
structure DeepgramTranscript where
  transcriptHtml : Option String
  transcript : Option String
  averageWordConfidence : Option ℚ
  speakerAmount : Option Nat
  uncertainWordPercentage : Option ℚ
deriving DecidableEq

/-- The words consumed by the assembler:
`channels[0]?.alternatives?.[0]?.words || []` (worker.ts line 236). -/
def firstAlternative (r : DGResponse) : Option DGAlternative :=
  (r.channels.head?.bind DGChannel.alternatives).bind List.head?

/-- Flat word list of the first channel's first alternative. -/
def wordsOf (r : DGResponse) : List DGWord :=
  ((firstAlternative r).bind DGAlternative.words).getD []

/-- Paragraph list of the first channel's first alternative
(`channels[0]?.alternatives?.[0]?.paragraphs?.paragraphs || []`). -/
def paragraphsOf (r : DGResponse) : List DGParagraph :=
  ((firstAlternative r).bind DGAlternative.paragraphs).getD []

/-- Speaker label text: the override if supplied and non-empty (JavaScript
`speakerIdentifier || ...`, worker.ts line 246), else Speaker id+1. -/
def speakerLabelOf (speakerIdentifier : Option String) (speaker : Nat) : String :=
  match jsTruthy speakerIdentifier with
  | some s => s
  | none => "Speaker " ++ toString (speaker + 1)

/-- Timestamp rendering of worker.ts lines 250-254:
minutes `Math.floor(start / 60)`, seconds `Math.floor(start % 60)`
zero-padded to two characters. -/
def timestampOf (start : ℚ) : String :=
  toString ⌊start / 60⌋ ++ ":" ++ padTwo (toString ⌊jsMod start 60⌋)

/-- The speaker label line appended when the speaker changes
(worker.ts line 252). -/
def labelLine (label : String) (start : ℚ) : String :=
  "\n\n" ++ label ++ " (" ++ timestampOf start ++ "): "

/-- One iteration of the inner sentence loop of `analyzeDeepgramResponse`
(worker.ts lines 244-259), threading the accumulated transcript text and
the `previousSpeaker` cursor (an `Int`, initialised to -1). -/
def sentenceStep (sid : Option String) (speaker : Nat) (st : String × Int) (sn : DGSentence) :
    String × Int :=
  if (speaker : Int) ≠ st.snd then
    (st.fst ++ labelLine (speakerLabelOf sid speaker) sn.start ++ sn.text ++ " ", (speaker : Int))
  else
    (st.fst ++ sn.text ++ " ", st.snd)

/-- One iteration of the outer paragraph loop (worker.ts line 243). -/
def paragraphStep (sid : Option String) (st : String × Int) (pg : DGParagraph) : String × Int :=
  (pg.sentences.getD []).foldl (sentenceStep sid (pg.speaker.getD 0)) st

/-- The transcript text built by the nested loops of
`analyzeDeepgramResponse` before trimming (worker.ts lines 240-260). -/
def buildTranscript (sid : Option String) (paragraphs : List DGParagraph) : String :=
  (paragraphs.foldl (paragraphStep sid) ("", -1)).fst

/-- The function analyzeDeepgramResponse of worker.ts lines 226-287. -/
def analyzeDeepgramResponse (apiResult : DGResponse) (speakerIdentifier : Option String) :
    DeepgramTranscript :=
  if apiResult.channels = [] then
    { transcript := some "", transcriptHtml := some "",
      averageWordConfidence := none, speakerAmount := none, uncertainWordPercentage := none }
  else
    let words := wordsOf apiResult
    let paragraphs := paragraphsOf apiResult
    let transcript := buildTranscript speakerIdentifier paragraphs
    let confidences := words.map (fun w => w.confidence.getD 0)
    let avgConfidence :=
      if 0 < confidences.length then confidences.sum / (confidences.length : ℚ) else 0
    let uncertainWords := (confidences.filter (fun c => decide (c < 7/10))).length
    let uncertainPercentage :=
      if 0 < confidences.length then (uncertainWords : ℚ) / (confidences.length : ℚ) else 0
    let speakers := (paragraphs.map (fun p => p.speaker.getD 0)).dedup
    { transcript := some (strTrim transcript)
      transcriptHtml := some (markdownToHtml (strTrim transcript))
      averageWordConfidence := some (roundTo3 avgConfidence)
      speakerAmount := some speakers.length
      uncertainWordPercentage := some (roundTo3 uncertainPercentage) }

/-!
Spec-level companion definitions.  These are written from the
specification's words (not from the source) and are compared with the
source-derived definitions in refinement theorems.
-/

/-- Spec-worded timestamp: minutes are the floor of the start time divided
by 60 and seconds the zero-padded floor of the start time modulo 60, with
the mathematical (floor-based) modulo of the specification text. -/
def specTimestamp (start : ℚ) : String :=
  toString ⌊start / 60⌋ ++ ":" ++ padTwo (toString ⌊start - 60 * (⌊start / 60⌋ : ℚ)⌋)

/-- Spec-worded label line for one speaker change. -/
def specLabelLine (label : String) (start : ℚ) : String :=
  "\n\n" ++ label ++ " (" ++ specTimestamp start ++ "): "

/-- The flat sentence sequence of a paragraph list, each sentence paired
with its paragraph's (defaulted) speaker id. -/
def flattenSentences (paragraphs : List DGParagraph) : List (Nat × DGSentence) :=
  paragraphs.flatMap fun pg => (pg.sentences.getD []).map fun sn => (pg.speaker.getD 0, sn)

/-- Spec-worded transcript rendering over the flat sentence sequence: a new
speaker-label line is emitted exactly when the sentence's speaker id
differs from that of the immediately preceding sentence, with a sentinel
previous-speaker cursor (here `Option.none`) that matches no real id, so
the first sentence always emits a label. -/
def specRender (sid : Option String) : Option Nat → List (Nat × DGSentence) → String
  | _, [] => ""
  | prev, (sp, sn) :: rest =>
    (if prev = some sp then "" else specLabelLine (speakerLabelOf sid sp) sn.start)
      ++ sn.text ++ " " ++ specRender sid (some sp) rest

/-- Interpretation of the previous-speaker sentinel: the source uses the
integer -1, the spec an optional value. -/
def intOfPrev : Option Nat → Int
  | none => -1
  | some n => (n : Int)

/-!
Pipeline model.  Outcomes of the worker's outbound network calls are
supplied by a `World` oracle; each call the handler issues is recorded in
a trace.
-/

/-- Outcome of one availability probe (`fetch` with method HEAD,
worker.ts lines 157-171): either the fetch throws (transport error), or a
response arrives with its `ok` flag and optional Content-Type header. -/
inductive ProbeResult where
  | thrown
  | response (ok : Bool) (contentType : Option String)
deriving DecidableEq

/-- Outcome of an outbound POST/DELETE call: the fetch (or subsequent body
parsing) throws, or the response is non-OK, or it is OK with a payload. -/
inductive FetchOutcome (α : Type) where
  | thrown
  | badStatus
  | ok (payload : α)
deriving DecidableEq

/-- Errors thrown inside the pipeline (modelled for the orchestrator's
try/catch): the poller's exhaustion error (worker.ts line 180), the email
sender's thrown failure (line 392), and transport errors. -/
inductive PipelineError where
  | recordingUnavailable
  | emailSendFailed
  | transportError
deriving DecidableEq

/-- One outbound network call, as recorded in the trace. -/
inductive Call where
  | probe (url : String)
  | transcribeReq (url : String)
  | emailSend
  | deleteReq (recordingSid : String)
deriving DecidableEq

/-- Oracle for the outcomes of the handler's outbound calls: the i-th
availability probe, the transcription request, the email send, and the
recording deletion. -/
structure World where
  probes : Nat → ProbeResult
  transcribeOutcome : FetchOutcome DGResponse
  emailOutcome : FetchOutcome Unit
  deleteOutcome : FetchOutcome Unit

/-- Bindings of the worker (interface Env, worker.ts lines 11-19).  Every
field is optional here so that absence of a credential is expressible; the
source reads these values only to build outbound request headers and
bodies, never to branch on, so they do not influence control flow. -/
structure EnvOpt where
  DEEPGRAM_SECRET : Option String
  SENDGRID_SECRET : Option String
  SENDGRID_FROM_EMAIL : Option String
  SENDGRID_FROM_NAME : Option String
  SENDGRID_TO_EMAIL : Option String
  TWILIO_ACCOUNT_SID : Option String
  TWILIO_AUTH_TOKEN : Option String

/-- Parsed form parameters of the inbound webhook
(`new URLSearchParams(formData).get`). -/
def Params : Type := String → Option String

/-- An HTTP response as the worker constructs it (the `Response` values of
worker.ts; a bare `new Response(body, { headers })` has status 200). -/
structure HttpResponse where
  status : Nat
  body : String
  contentType : Option String
deriving DecidableEq

/-- An inbound request: its full URL, its pathname, its method, and its
parsed form body. -/
structure HttpRequest where
  url : String
  path : String
  method : String
  form : Params

/-- The empty TwiML acknowledgment body. -/
def emptyTwiMLXml : String :=
  "<?xml version=\"1.0\" encoding=\"UTF-8\"?><Response></Response>"

/-- The function respondWithEmptyTwiML (worker.ts lines 430-437). -/
def respondWithEmptyTwiML : HttpResponse :=
  { status := 200, body := emptyTwiMLXml, contentType := some "text/xml" }

/-- Success test of one availability probe (worker.ts lines 166-169):
`response.ok && response.headers.get("Content-Type")?.includes("audio")`;
a thrown fetch is caught and counts as failure. -/
def probeSuccess : ProbeResult → Bool
  | ProbeResult.thrown => false
  | ProbeResult.response ok ct =>
    ok && (match ct with
           | some s => containsAudio s
           | none => false)

/-- Spec-modelled claimed probe-success predicate: the claim's words make
an attempt successful when the status is OK and, if the content type is
observable, it indicates audio (so an OK response without an observable
content type would count as successful). -/
def probeSuccessClaimed : ProbeResult → Bool
  | ProbeResult.thrown => false
  | ProbeResult.response ok ct =>
    ok && (match ct with
           | some s => containsAudio s
           | none => true)

/-- The retry loop of waitForRecording (worker.ts lines 155-178): `i` is
the index of the next probe, the second argument the number of attempts
remaining.  Returns the poll result together with the probes issued. -/
def waitLoop (probes : Nat → ProbeResult) (url : String) :
    Nat → Nat → Except PipelineError Unit × List Call
  | _, 0 => (Except.error PipelineError.recordingUnavailable, [])
  | i, Nat.succ n =>
    if probeSuccess (probes i) then (Except.ok (), [Call.probe url])
    else
      match waitLoop probes url (i + 1) n with
      | (r, t) => (r, Call.probe url :: t)

/-- The function waitForRecording (worker.ts lines 150-181): up to
`maxAttempts` probes, returning on the first success, throwing
Recording-not-available after exhausting all attempts. -/
def waitForRecordingRun (probes : Nat → ProbeResult) (url : String) (maxAttempts : Nat) :
    Except PipelineError Unit × List Call :=
  waitLoop probes url 0 maxAttempts

/-- The function transcribeRecording (worker.ts lines 186-221): one POST to
the transcription provider; a non-OK status or a thrown fetch/parse error
yields null, an OK response is analyzed into a DeepgramTranscript. -/
def transcribeRecordingRun (outcome : FetchOutcome DGResponse) (audioUrl : String)
    (speakerIdentifier : String) : Option DeepgramTranscript × List Call :=
  match outcome with
  | FetchOutcome.thrown => (none, [Call.transcribeReq audioUrl])
  | FetchOutcome.badStatus => (none, [Call.transcribeReq audioUrl])
  | FetchOutcome.ok raw =>
    (some (analyzeDeepgramResponse raw (some speakerIdentifier)), [Call.transcribeReq audioUrl])

/-- The function sendTranscriptEmail (worker.ts lines 305-400): one POST to
the email provider; a non-OK status throws (line 392) and the catch block
rethrows (line 398), so both failure modes propagate to the caller. -/
def sendTranscriptEmailRun (outcome : FetchOutcome Unit) :
    Except PipelineError Unit × List Call :=
  match outcome with
  | FetchOutcome.thrown => (Except.error PipelineError.transportError, [Call.emailSend])
  | FetchOutcome.badStatus => (Except.error PipelineError.emailSendFailed, [Call.emailSend])
  | FetchOutcome.ok _ => (Except.ok (), [Call.emailSend])

/-- The function deleteRecording (worker.ts lines 405-425): one DELETE to
the telephony provider; a non-OK response is only logged, and the
surrounding try/catch swallows a thrown fetch, so the function always
returns normally. -/
def deleteRecordingRun (outcome : FetchOutcome Unit) (recordingSid : String) :
    Except PipelineError Unit × List Call :=
  (match (match outcome with
          | FetchOutcome.thrown => Except.error PipelineError.transportError
          | FetchOutcome.badStatus => Except.ok ()
          | FetchOutcome.ok _ => Except.ok ()) with
   | Except.error _ => Except.ok ()
   | Except.ok _ => Except.ok (), [Call.deleteReq recordingSid])

/-- The function handleRecordingComplete (worker.ts lines 94-145).  The
branches mirror the source: the missing-URL early return (lines 107-115,
an inline empty-TwiML response), the awaited poll whose thrown exhaustion
error reaches the outer catch (line 141), the null/empty transcript guard
(line 125), the awaited email send whose exception reaches the outer
catch, and the recording deletion gated on a truthy RecordingSid. -/
def handleRecordingComplete (env : EnvOpt) (w : World) (p : Params) :
    HttpResponse × List Call :=
  match jsTruthy (p "RecordingUrl") with
  | none => ({ status := 200, body := emptyTwiMLXml, contentType := some "text/xml" }, [])
  | some recordingUrl =>
    match waitForRecordingRun w.probes recordingUrl 10 with
    | (Except.error _, pollTrace) => (respondWithEmptyTwiML, pollTrace)
    | (Except.ok _, pollTrace) =>
      match transcribeRecordingRun w.transcribeOutcome recordingUrl
          (jsOrDefault (p "From") "Unknown") with
      | (none, tTrace) => (respondWithEmptyTwiML, pollTrace ++ tTrace)
      | (some dg, tTrace) =>
        match dg.transcript with
        | none => (respondWithEmptyTwiML, pollTrace ++ tTrace)
        | some txt =>
          if txt = "" then (respondWithEmptyTwiML, pollTrace ++ tTrace)
          else
            match sendTranscriptEmailRun w.emailOutcome with
            | (Except.error _, eTrace) => (respondWithEmptyTwiML, pollTrace ++ tTrace ++ eTrace)
            | (Except.ok _, eTrace) =>
              match jsTruthy (p "RecordingSid") with
              | none => (respondWithEmptyTwiML, pollTrace ++ tTrace ++ eTrace)
              | some recordingSid =>
                match deleteRecordingRun w.deleteOutcome recordingSid with
                | (_, dTrace) =>
                  (respondWithEmptyTwiML, pollTrace ++ tTrace ++ eTrace ++ dTrace)

/-- Origin (scheme and host) of an absolute URL, used to resolve the
recording-status callback against the request URL. -/
def urlOrigin (u : String) : String :=
  match u.splitOn "://" with
  | scheme :: rest :: _ => scheme ++ "://" ++ (rest.splitOn "/").headD ""
  | _ => u

/-- Models `new URL("/recording-complete", request.url).toString()`
(worker.ts lines 76-79). -/
def resolveRecordingCompleteUrl (requestUrl : String) : String :=
  urlOrigin requestUrl ++ "/recording-complete"

/-- The TwiML body returned by handleInitialCall (worker.ts lines 69-84). -/
def recordTwiml (fromNumber toNumber callback : String) : String :=
  "<?xml version=\"1.0\" encoding=\"UTF-8\"?>\n<Response>\n  <Say>Welcome to Screenless."
    ++ " Your call is being recorded. Please leave your message after the beep.</Say>\n"
    ++ "  <Record \n    timeout=\"10\" \n    maxLength=\"600\"\n    playBeep=\"true\"\n"
    ++ "    recordingStatusCallback=\"" ++ callback ++ "\"\n"
    ++ "    recordingStatusCallbackMethod=\"POST\"\n    transcribe=\"false\"\n  />\n"
    ++ "  <Say>Thank you for your message. Goodbye."
    ++ " (" ++ fromNumber ++ " to " ++ toNumber ++ ")</Say>\n</Response>"

/-- The function handleInitialCall (worker.ts lines 59-89): a 200 TwiML
response instructing the provider to record. -/
def handleInitialCall (req : HttpRequest) : HttpResponse :=
  { status := 200
    body := recordTwiml (jsOrDefault (req.form "From") "Unknown")
      (jsOrDefault (req.form "To") "Unknown") (resolveRecordingCompleteUrl req.url)
    contentType := some "text/xml" }

/-- The top-level fetch handler (worker.ts lines 38-54): route on pathname
and method, falling through to a 404. -/
def fetchMain (env : EnvOpt) (w : World) (req : HttpRequest) : HttpResponse × List Call :=
  if req.path = "/record" ∧ req.method = "POST" then (handleInitialCall req, [])
  else if req.path = "/recording-complete" ∧ req.method = "POST" then
    handleRecordingComplete env w req.form
  else ({ status := 404, body := "Not Found", contentType := none }, [])

/-! Shared concrete instances used by witnesses and counterexamples. -/

/-- An environment with every credential absent. -/
def env0 : EnvOpt :=
  { DEEPGRAM_SECRET := none, SENDGRID_SECRET := none, SENDGRID_FROM_EMAIL := none,
    SENDGRID_FROM_NAME := none, SENDGRID_TO_EMAIL := none,
    TWILIO_ACCOUNT_SID := none, TWILIO_AUTH_TOKEN := none }

/-- A world in which every outbound call fails with a transport error. -/
def w0 : World :=
  { probes := fun _ => ProbeResult.thrown, transcribeOutcome := FetchOutcome.thrown,
    emailOutcome := FetchOutcome.thrown, deleteOutcome := FetchOutcome.thrown }

/-- A form body with no fields at all. -/
def pNone : Params := fun _ => none

/-! Helper lemmas about the pipeline. -/

/-- Every branch of the completion handler responds with the empty TwiML
acknowledgment. -/
theorem handle_fst_ack (env : EnvOpt) (w : World) (p : Params) :
    (handleRecordingComplete env w p).fst = respondWithEmptyTwiML := by
  unfold handleRecordingComplete
  repeat' split <;> try rfl

/-- C1: for every inbound recording-complete event, the completion handler
returns the same empty success acknowledgment (empty TwiML, a 200-status
response) on every execution path -- successful full pipeline, missing
recordingUrl, poll exhaustion, null transcription, and an exception while
sending or deleting -- and never an error response.  All paths are covered
by quantifying over the form body and the outcome oracle. -/
theorem recordingComplete_always_acknowledges (env : EnvOpt) (w : World) (p : Params) :
    (handleRecordingComplete env w p).fst = respondWithEmptyTwiML
    ∧ respondWithEmptyTwiML.status = 200
    ∧ respondWithEmptyTwiML.body = emptyTwiMLXml :=
  ⟨handle_fst_ack env w p, rfl, rfl⟩

/-- C9: the markdown-to-HTML conversion applies exactly the four
substitutions in their fixed order (bold, italic, paragraph break, line
break) wrapped in one paragraph container, and on the input from the
specification produces exactly the expected markup. -/
theorem markdownToHtml_four_substitutions :
    (∀ s, markdownToHtml s
        = "<p>" ++ replaceLineBreaks (replaceParaBreaks (replaceItalic (replaceBold s))) ++ "</p>")
    ∧ markdownToHtml "**a** *b*\n\nc" = "<p><strong>a</strong> <em>b</em></p><p>c</p>" :=
  ⟨fun _ => rfl, by decide⟩

/-- C5 (amended): when the raw transcription result has no channels, the
assembler returns, without error, a result whose text and html are empty
strings and whose three metric fields are absent (undefined), not numbers. -/
theorem analyze_no_channels (raw : DGResponse) (sid : Option String) (h : raw.channels = []) :
    analyzeDeepgramResponse raw sid
      = { transcript := some "", transcriptHtml := some "",
          averageWordConfidence := none, speakerAmount := none,
          uncertainWordPercentage := none } := by
  unfold analyzeDeepgramResponse
  rw [if_pos h]

/-- Witness for analyze_no_channels at the concrete channel-free response. -/
theorem analyze_no_channels_witness :
    ({ channels := [] } : DGResponse).channels = []
    ∧ analyzeDeepgramResponse { channels := [] } none
      = { transcript := some "", transcriptHtml := some "",
          averageWordConfidence := none, speakerAmount := none,
          uncertainWordPercentage := none } :=
  ⟨rfl, analyze_no_channels { channels := [] } none rfl⟩

/-- Counterexample to C5 as stated: on a channel-free result the metric
fields are not floats in the unit interval (nor a non-negative integer
count); they are absent. -/
theorem analyze_no_channels_counterexample :
    (analyzeDeepgramResponse { channels := [] } none).transcript = some ""
    ∧ (analyzeDeepgramResponse { channels := [] } none).transcriptHtml = some ""
    ∧ ¬ (∃ q : ℚ, (analyzeDeepgramResponse { channels := [] } none).averageWordConfidence
          = some q ∧ 0 ≤ q ∧ q ≤ 1)
    ∧ ¬ (∃ q : ℚ, (analyzeDeepgramResponse { channels := [] } none).uncertainWordPercentage
          = some q ∧ 0 ≤ q ∧ q ≤ 1)
    ∧ ¬ (∃ n : Nat, (analyzeDeepgramResponse { channels := [] } none).speakerAmount = some n) := by
  simp [analyzeDeepgramResponse]

/-- C7: an event whose form data lacks the recordingUrl field makes the
pipeline abort with an empty outbound-call trace (no probe, no
transcription request, no email, no deletion) while still returning the
empty success acknowledgment. -/
theorem missing_recordingUrl_aborts (env : EnvOpt) (w : World) (p : Params)
    (h : p "RecordingUrl" = none) :
    handleRecordingComplete env w p = (respondWithEmptyTwiML, ([] : List Call)) := by
  unfold handleRecordingComplete
  rw [h]
  rfl

/-- Witness for missing_recordingUrl_aborts on the empty form body. -/
theorem missing_recordingUrl_aborts_witness :
    pNone "RecordingUrl" = none
    ∧ handleRecordingComplete env0 w0 pNone = (respondWithEmptyTwiML, ([] : List Call)) :=
  ⟨rfl, missing_recordingUrl_aborts env0 w0 pNone rfl⟩

/-! Poller lemmas. -/

/-- If every remaining attempt fails, the loop exhausts all attempts and
throws the recording-unavailable error after probing once per attempt. -/
theorem waitLoop_all_fail (probes : Nat → ProbeResult) (url : String) :
    ∀ n i, (∀ j, j < n → probeSuccess (probes (i + j)) = false) →
      waitLoop probes url i n
        = (Except.error PipelineError.recordingUnavailable, List.replicate n (Call.probe url)) := by
  intro n
  induction n with
  | zero => intro i _; rfl
  | succ n ih =>
    intro i h
    have h0 : probeSuccess (probes i) = false := by
      have := h 0 (Nat.succ_pos n)
      simpa using this
    have hRest : ∀ j, j < n → probeSuccess (probes (i + 1 + j)) = false := by
      intro j hj
      have := h (j + 1) (Nat.succ_lt_succ hj)
      have hx : i + (j + 1) = i + 1 + j := by omega
      rwa [hx] at this
    unfold waitLoop
    rw [h0]
    simp only [Bool.false_eq_true, if_false, ih (i + 1) hRest, List.replicate_succ]

/-- If the loop result is an error, every attempt it covered failed. -/
theorem waitLoop_error_all_fail (probes : Nat → ProbeResult) (url : String) :
    ∀ n i, (waitLoop probes url i n).fst = Except.error PipelineError.recordingUnavailable →
      ∀ j, j < n → probeSuccess (probes (i + j)) = false := by
  intro n
  induction n with
  | zero => intro i _ j hj; omega
  | succ n ih =>
    intro i herr j hj
    by_cases h0 : probeSuccess (probes i) = true
    · exfalso
      unfold waitLoop at herr
      rw [if_pos h0] at herr
      exact Except.noConfusion herr
    · have h0' : probeSuccess (probes i) = false := by
        cases hh : probeSuccess (probes i)
        · rfl
        · exact absurd hh h0
      unfold waitLoop at herr
      rw [h0'] at herr
      simp only [Bool.false_eq_true, if_false] at herr
      rcases j with _ | j
      · simpa using h0'
      · have hj' : j < n := by omega
        have herr' : (waitLoop probes url (i + 1) n).fst
            = Except.error PipelineError.recordingUnavailable := by
          rcases hw : waitLoop probes url (i + 1) n with ⟨r, t⟩
          rw [hw] at herr
          simpa using herr
        have := ih (i + 1) herr' j hj'
        have hx : i + 1 + j = i + (j + 1) := by omega
        rwa [hx] at this

/-- On the first successful attempt the loop returns at once, having
probed exactly once per attempt up to and including the successful one. -/
theorem waitLoop_first_success (probes : Nat → ProbeResult) (url : String) :
    ∀ n i k, k < n → probeSuccess (probes (i + k)) = true →
      (∀ j, j < k → probeSuccess (probes (i + j)) = false) →
      waitLoop probes url i n = (Except.ok (), List.replicate (k + 1) (Call.probe url)) := by
  intro n
  induction n with
  | zero => intro i k hk; omega
  | succ n ih =>
    intro i k hk hsucc hfail
    rcases k with _ | k
    · have h0 : probeSuccess (probes i) = true := by simpa using hsucc
      unfold waitLoop
      rw [if_pos h0]
      rfl
    · have h0 : probeSuccess (probes i) = false := by
        have := hfail 0 (Nat.succ_pos k)
        simpa using this
      have hsucc' : probeSuccess (probes (i + 1 + k)) = true := by
        have hx : i + (k + 1) = i + 1 + k := by omega
        rwa [hx] at hsucc
      have hfail' : ∀ j, j < k → probeSuccess (probes (i + 1 + j)) = false := by
        intro j hj
        have := hfail (j + 1) (Nat.succ_lt_succ hj)
        have hx : i + (j + 1) = i + 1 + j := by omega
        rwa [hx] at this
      unfold waitLoop
      rw [h0]
      simp only [Bool.false_eq_true, if_false,
        ih (i + 1) k (by omega) hsucc' hfail', List.replicate_succ]

/-- Every call the poller records is a probe of the polled URL. -/
theorem waitLoop_trace_probe_only (probes : Nat → ProbeResult) (url : String) :
    ∀ n i c, c ∈ (waitLoop probes url i n).snd → c = Call.probe url := by
  intro n
  induction n with
  | zero => intro i c hc; simp [waitLoop] at hc
  | succ n ih =>
    intro i c hc
    unfold waitLoop at hc
    by_cases h0 : probeSuccess (probes i) = true
    · rw [if_pos h0] at hc
      simpa using hc
    · have h0' : probeSuccess (probes i) = false := by
        cases hh : probeSuccess (probes i)
        · rfl
        · exact absurd hh h0
      rw [h0'] at hc
      simp only [Bool.false_eq_true, if_false] at hc
      rcases hw : waitLoop probes url (i + 1) n with ⟨r, t⟩
      rw [hw] at hc
      simp only [List.mem_cons] at hc
      rcases hc with hc | hc
      · exact hc
      · exact ih (i + 1) c (by rw [hw]; exact hc)

/-- C4 (amended): a probe attempt is successful exactly when the response
status is OK and the content type is observable and indicates audio (a
missing content-type header counts as an unsuccessful attempt, and a
thrown fetch likewise); the poller returns immediately on the first
successful attempt having issued exactly that many probes; and it fails
with the recording-unavailable error if and only if all maxAttempts
attempts (10 at the call site) were unsuccessful. -/
theorem waitForRecording_retry_policy (probes : Nat → ProbeResult) (url : String)
    (maxAttempts : Nat) :
    (∀ ok ct, probeSuccess (ProbeResult.response ok ct) = true
        ↔ (ok = true ∧ ∃ s, ct = some s ∧ containsAudio s = true))
    ∧ probeSuccess ProbeResult.thrown = false
    ∧ ((waitForRecordingRun probes url maxAttempts).fst
          = Except.error PipelineError.recordingUnavailable
        ↔ ∀ j, j < maxAttempts → probeSuccess (probes j) = false)
    ∧ (∀ k, k < maxAttempts → probeSuccess (probes k) = true →
        (∀ j, j < k → probeSuccess (probes j) = false) →
        waitForRecordingRun probes url maxAttempts
          = (Except.ok (), List.replicate (k + 1) (Call.probe url))) := by
  refine ⟨?_, rfl, ⟨?_, ?_⟩, ?_⟩
  · intro ok ct
    cases ct with
    | none => simp [probeSuccess]
    | some s => cases ok <;> simp [probeSuccess]
  · intro herr j hj
    have := waitLoop_error_all_fail probes url maxAttempts 0 herr j hj
    simpa using this
  · intro hall
    have hall' : ∀ j, j < maxAttempts → probeSuccess (probes (0 + j)) = false := by
      intro j hj; simpa using hall j hj
    rw [waitForRecordingRun, waitLoop_all_fail probes url maxAttempts 0 hall']
  · intro k hk hsucc hfail
    have hsucc' : probeSuccess (probes (0 + k)) = true := by simpa using hsucc
    have hfail' : ∀ j, j < k → probeSuccess (probes (0 + j)) = false := by
      intro j hj; simpa using hfail j hj
    rw [waitForRecordingRun, waitLoop_first_success probes url maxAttempts 0 k hk hsucc' hfail']

/-- Probe schedule whose third attempt is the first success. -/
def probesW : Nat → ProbeResult :=
  fun i => if i = 2 then ProbeResult.response true (some "audio/x-wav") else ProbeResult.thrown

/-- Witness for waitForRecording_retry_policy: with the first success on
attempt index 2 of 10, the poller stops after exactly three probes. -/
theorem waitForRecording_retry_policy_witness :
    (2 < 10 ∧ probeSuccess (probesW 2) = true ∧ (∀ j, j < 2 → probeSuccess (probesW j) = false))
    ∧ waitForRecordingRun probesW "u" 10
        = (Except.ok (), List.replicate 3 (Call.probe "u")) :=
  ⟨⟨by decide, by decide, by decide⟩,
    (waitForRecording_retry_policy probesW "u" 10).2.2.2 2 (by decide) (by decide) (by decide)⟩

/-- Counterexample to C4 as stated: an OK response with no observable
content type is claimed successful, but the source treats it as a failed
attempt, and a poll seeing only such responses exhausts its attempts and
fails with the recording-unavailable error. -/
theorem waitForRecording_content_type_counterexample :
    probeSuccessClaimed (ProbeResult.response true none) = true
    ∧ probeSuccess (ProbeResult.response true none) = false
    ∧ (waitForRecordingRun (fun _ => ProbeResult.response true none) "u" 10).fst
        = Except.error PipelineError.recordingUnavailable :=
  ⟨rfl, rfl, rfl⟩

/-! Trace-shape helper lemmas. -/

/-- A truthy form field is present and non-empty. -/
theorem jsTruthy_some (o : Option String) (s : String) (h : jsTruthy o = some s) :
    o = some s ∧ s ≠ "" := by
  cases o with
  | none => simp [jsTruthy] at h
  | some t =>
    by_cases ht : t = ""
    · simp [jsTruthy, ht] at h
    · simp [jsTruthy, ht] at h
      subst h
      exact ⟨rfl, ht⟩

/-- The transcription stage issues exactly one transcription request. -/
theorem transcribe_snd (o : FetchOutcome DGResponse) (u s : String) :
    (transcribeRecordingRun o u s).snd = [Call.transcribeReq u] := by
  cases o <;> rfl

/-- The email stage issues exactly one send call. -/
theorem email_snd (o : FetchOutcome Unit) :
    (sendTranscriptEmailRun o).snd = [Call.emailSend] := by
  cases o <;> rfl

/-- The deletion stage issues exactly one delete call. -/
theorem delete_snd (o : FetchOutcome Unit) (sid : String) :
    (deleteRecordingRun o sid).snd = [Call.deleteReq sid] := by
  cases o <;> rfl

/-- When the transcription outcome parses to a transcript whose text is
empty, the handler stops right after the transcription stage: it returns
the acknowledgment, and its trace is the poll probes followed (only if
the poll succeeded) by the one transcription request. -/
theorem handle_empty_transcript_trace (env : EnvOpt) (w : World) (p : Params) (raw : DGResponse)
    (url : String) (hURL : jsTruthy (p "RecordingUrl") = some url)
    (h1 : w.transcribeOutcome = FetchOutcome.ok raw)
    (h2 : (analyzeDeepgramResponse raw (some (jsOrDefault (p "From") "Unknown"))).transcript
        = some "") :
    handleRecordingComplete env w p
      = (respondWithEmptyTwiML,
          (waitForRecordingRun w.probes url 10).snd
            ++ (match (waitForRecordingRun w.probes url 10).fst with
                | Except.error _ => []
                | Except.ok _ => [Call.transcribeReq url])) := by
  rcases hPoll : waitForRecordingRun w.probes url 10 with ⟨pr, pollTrace⟩
  rcases pr with e | u
  · simp only [handleRecordingComplete, hURL, hPoll]
    simp
  · rcases hT : transcribeRecordingRun w.transcribeOutcome url
        (jsOrDefault (p "From") "Unknown") with ⟨tRes, tTrace⟩
    have h3 : transcribeRecordingRun w.transcribeOutcome url (jsOrDefault (p "From") "Unknown")
        = (some (analyzeDeepgramResponse raw (some (jsOrDefault (p "From") "Unknown"))),
            [Call.transcribeReq url]) := by
      rw [h1]
      rfl
    rw [hT] at h3
    injection h3 with h4 h5
    subst h4
    subst h5
    simp only [handleRecordingComplete, hURL, hPoll, hT, h2]
    simp

/-- C8: the recording deleter never raises to its caller (every outcome,
including a non-OK response and a thrown fetch, returns normally); the
orchestrator issues a delete call only when a truthy recording identifier
was present in the event; and the pipeline reaches the success
acknowledgment regardless. -/
theorem deleteRecording_best_effort :
    (∀ outcome sid, (deleteRecordingRun outcome sid).fst = Except.ok ())
    ∧ (∀ (env : EnvOpt) (w : World) (p : Params) (s : String),
        Call.deleteReq s ∈ (handleRecordingComplete env w p).snd →
          p "RecordingSid" = some s ∧ s ≠ "")
    ∧ (∀ (env : EnvOpt) (w : World) (p : Params),
        (handleRecordingComplete env w p).fst = respondWithEmptyTwiML) := by
  refine ⟨?_, ?_, fun env w p => handle_fst_ack env w p⟩
  · intro outcome sid
    cases outcome <;> rfl
  · intro env w p s hmem
    rcases hURL : jsTruthy (p "RecordingUrl") with _ | url
    · simp only [handleRecordingComplete, hURL] at hmem
      simp at hmem
    · rcases hPoll : waitForRecordingRun w.probes url 10 with ⟨pr, pollTrace⟩
      have hProbe : ∀ c, c ∈ pollTrace → c = Call.probe url := by
        intro c hc
        have hc2 : c ∈ (waitForRecordingRun w.probes url 10).snd := by
          rw [hPoll]
          exact hc
        exact waitLoop_trace_probe_only w.probes url 10 0 c hc2
      rcases pr with e | u
      · simp only [handleRecordingComplete, hURL, hPoll] at hmem
        exact Call.noConfusion (hProbe _ hmem)
      · rcases hT : transcribeRecordingRun w.transcribeOutcome url
            (jsOrDefault (p "From") "Unknown") with ⟨tRes, tTrace⟩
        have hTT : tTrace = [Call.transcribeReq url] := by
          have h3 := transcribe_snd w.transcribeOutcome url (jsOrDefault (p "From") "Unknown")
          rw [hT] at h3
          simpa using h3
        subst hTT
        rcases tRes with _ | dg
        · simp only [handleRecordingComplete, hURL, hPoll, hT] at hmem
          simp only [List.mem_append, List.mem_singleton] at hmem
          rcases hmem with hmem | hmem
          · exact Call.noConfusion (hProbe _ hmem)
          · exact Call.noConfusion hmem
        · rcases hTrs : dg.transcript with _ | txt
          · simp only [handleRecordingComplete, hURL, hPoll, hT, hTrs] at hmem
            simp only [List.mem_append, List.mem_singleton] at hmem
            rcases hmem with hmem | hmem
            · exact Call.noConfusion (hProbe _ hmem)
            · exact Call.noConfusion hmem
          · by_cases hTxt : txt = ""
            · simp only [handleRecordingComplete, hURL, hPoll, hT, hTrs, if_pos hTxt] at hmem
              simp only [List.mem_append, List.mem_singleton] at hmem
              rcases hmem with hmem | hmem
              · exact Call.noConfusion (hProbe _ hmem)
              · exact Call.noConfusion hmem
            · rcases hE : sendTranscriptEmailRun w.emailOutcome with ⟨eRes, eTrace⟩
              have hET : eTrace = [Call.emailSend] := by
                have h4 := email_snd w.emailOutcome
                rw [hE] at h4
                simpa using h4
              subst hET
              rcases eRes with e2 | u2
              · simp only [handleRecordingComplete, hURL, hPoll, hT, hTrs, if_neg hTxt,
                  hE] at hmem
                simp only [List.mem_append, List.mem_singleton] at hmem
                rcases hmem with (hmem | hmem) | hmem
                · exact Call.noConfusion (hProbe _ hmem)
                · exact Call.noConfusion hmem
                · exact Call.noConfusion hmem
              · rcases hSid : jsTruthy (p "RecordingSid") with _ | sid
                · simp only [handleRecordingComplete, hURL, hPoll, hT, hTrs, if_neg hTxt,
                    hE, hSid] at hmem
                  simp only [List.mem_append, List.mem_singleton] at hmem
                  rcases hmem with (hmem | hmem) | hmem
                  · exact Call.noConfusion (hProbe _ hmem)
                  · exact Call.noConfusion hmem
                  · exact Call.noConfusion hmem
                · rcases hD : deleteRecordingRun w.deleteOutcome sid with ⟨dRes, dTrace⟩
                  have hDT : dTrace = [Call.deleteReq sid] := by
                    have h5 := delete_snd w.deleteOutcome sid
                    rw [hD] at h5
                    simpa using h5
                  subst hDT
                  simp only [handleRecordingComplete, hURL, hPoll, hT, hTrs, if_neg hTxt,
                    hE, hSid, hD] at hmem
                  simp only [List.mem_append, List.mem_singleton] at hmem
                  rcases hmem with ((hmem | hmem) | hmem) | hmem
                  · exact Call.noConfusion (hProbe _ hmem)
                  · exact Call.noConfusion hmem
                  · exact Call.noConfusion hmem
                  · injection hmem with h6
                    subst h6
                    exact jsTruthy_some (p "RecordingSid") s hSid

/-- C10 (implicit): when the transcription stage returns a non-null result
whose transcript text is the empty string, the completion handler aborts
exactly as for a null result: no email is sent and no recording deletion
is issued (even when a recording identifier is present), and it still
returns the empty success acknowledgment. -/
theorem empty_transcript_aborts (env : EnvOpt) (w : World) (p : Params) (raw : DGResponse)
    (h1 : w.transcribeOutcome = FetchOutcome.ok raw)
    (h2 : (analyzeDeepgramResponse raw (some (jsOrDefault (p "From") "Unknown"))).transcript
        = some "") :
    Call.emailSend ∉ (handleRecordingComplete env w p).snd
    ∧ (∀ s, Call.deleteReq s ∉ (handleRecordingComplete env w p).snd)
    ∧ (handleRecordingComplete env w p).fst = respondWithEmptyTwiML := by
  have hTr : ∀ c, c ∈ (handleRecordingComplete env w p).snd →
      (∃ u, c = Call.probe u) ∨ (∃ u, c = Call.transcribeReq u) := by
    intro c hmem
    rcases hURL : jsTruthy (p "RecordingUrl") with _ | url
    · simp only [handleRecordingComplete, hURL] at hmem
      simp at hmem
    · rw [handle_empty_transcript_trace env w p raw url hURL h1 h2] at hmem
      simp only [List.mem_append] at hmem
      rcases hmem with hmem | hmem
      · exact Or.inl ⟨url, waitLoop_trace_probe_only w.probes url 10 0 c hmem⟩
      · rcases hfst : (waitForRecordingRun w.probes url 10).fst with e | u2
        · rw [hfst] at hmem
          simp at hmem
        · rw [hfst] at hmem
          simp at hmem
          exact Or.inr ⟨url, hmem⟩
  refine ⟨?_, ?_, handle_fst_ack env w p⟩
  · intro hmem
    rcases hTr _ hmem with ⟨u, h⟩ | ⟨u, h⟩ <;> exact Call.noConfusion h
  · intro s hmem
    rcases hTr _ hmem with ⟨u, h⟩ | ⟨u, h⟩ <;> exact Call.noConfusion h

/-! Claim C6 and concrete pipeline witnesses. -/

/-- A recording-complete form body carrying a recording URL and a
recording id. -/
def p8 : Params := fun k =>
  if k = "RecordingUrl" then some "https-rec" else
  if k = "RecordingSid" then some "RS1" else none

/-- A recording-complete request carrying a recording URL. -/
def req6 : HttpRequest :=
  { url := "https-host", path := "/recording-complete", method := "POST", form := p8 }

/-- C6 (amended): the worker performs no credential-presence check and
never produces a 5xx-class response: whatever the bindings and the
outcome oracle, the routed response is a 200 (TwiML) for the two POST
endpoints and a 404 otherwise, and every recording-complete request is
answered with the empty success acknowledgment. -/
theorem config_errors_not_5xx (env : EnvOpt) (w : World) (req : HttpRequest) :
    ((fetchMain env w req).fst.status = 200 ∨ (fetchMain env w req).fst.status = 404)
    ∧ (req.path = "/recording-complete" → req.method = "POST" →
        (fetchMain env w req).fst = respondWithEmptyTwiML) := by
  constructor
  · unfold fetchMain
    split
    · exact Or.inl rfl
    · split
      · exact Or.inl (by rw [handle_fst_ack env w req.form]; rfl)
      · exact Or.inr rfl
  · intro h1 h2
    have hne : ¬ (req.path = "/record" ∧ req.method = "POST") := by
      rintro ⟨hr, _⟩
      rw [h1] at hr
      exact absurd hr (by decide)
    unfold fetchMain
    rw [if_neg hne, if_pos ⟨h1, h2⟩]
    exact handle_fst_ack env w req.form

/-- Witness for config_errors_not_5xx on a concrete recording-complete
request with every credential absent. -/
theorem config_errors_not_5xx_witness :
    req6.path = "/recording-complete" ∧ req6.method = "POST"
    ∧ (fetchMain env0 w0 req6).fst = respondWithEmptyTwiML :=
  ⟨rfl, rfl, (config_errors_not_5xx env0 w0 req6).2 rfl rfl⟩

/-- Counterexample to C6 as stated: with every required credential absent,
a recording-complete event is still answered with a 200 acknowledgment,
not a distinct 5xx-class failure; no configuration check exists. -/
theorem missing_config_no_5xx_counterexample :
    env0.DEEPGRAM_SECRET = none ∧ env0.TWILIO_ACCOUNT_SID = none
    ∧ env0.SENDGRID_SECRET = none
    ∧ (fetchMain env0 w0 req6).fst.status = 200
    ∧ ¬ (500 ≤ (fetchMain env0 w0 req6).fst.status) :=
  ⟨rfl, rfl, rfl, rfl, by decide⟩

/-- The one spoken sentence of the concrete success-path response. -/
def sn8 : DGSentence := { text := "Hi.", start := 0 }

/-- Its paragraph, attributed to speaker 0. -/
def pg8 : DGParagraph := { speaker := some 0, sentences := some [sn8] }

/-- Its alternative, with an empty word list. -/
def alt8 : DGAlternative := { words := some [], paragraphs := some [pg8] }

/-- A one-channel response with one spoken sentence and no word list. -/
def raw8 : DGResponse := { channels := [{ alternatives := some [alt8] }] }


/-- A world in which polling succeeds at once, transcription returns the
one-sentence response, email succeeds, and recording deletion throws. -/
def w8 : World :=
  { probes := fun _ => ProbeResult.response true (some "audio/mpeg"),
    transcribeOutcome := FetchOutcome.ok raw8,
    emailOutcome := FetchOutcome.ok (),
    deleteOutcome := FetchOutcome.thrown }

/-- Full evaluation of the success-path pipeline over `w8`. -/
theorem handle_w8_eval :
    handleRecordingComplete env0 w8 p8
      = (respondWithEmptyTwiML,
          [Call.probe "https-rec", Call.transcribeReq "https-rec", Call.emailSend,
            Call.deleteReq "RS1"]) := by
  with_unfolding_all rfl

/-- Witness for deleteRecording_best_effort: a thrown delete still returns
normally, and the one delete call in the trace of the `w8` run is for the
recording id that was present in the event. -/
theorem deleteRecording_best_effort_witness :
    (deleteRecordingRun FetchOutcome.thrown "RS1").fst = Except.ok ()
    ∧ (p8 "RecordingSid" = some "RS1" ∧ "RS1" ≠ "") :=
  ⟨deleteRecording_best_effort.1 FetchOutcome.thrown "RS1",
    deleteRecording_best_effort.2.1 env0 w8 p8 "RS1" (by rw [handle_w8_eval]; decide)⟩

/-- A raw transcription result with no channels, whose analyzed transcript
text is the empty string. -/
def rawEmpty : DGResponse := { channels := [] }

/-- A world in which transcription succeeds but parses to the channel-free
response; every later stage would succeed if reached. -/
def w10 : World :=
  { probes := fun _ => ProbeResult.response true (some "audio/mpeg"),
    transcribeOutcome := FetchOutcome.ok rawEmpty,
    emailOutcome := FetchOutcome.ok (),
    deleteOutcome := FetchOutcome.ok () }

/-- Witness for empty_transcript_aborts: transcription parses to an empty
transcript text, and even with a recording id present in the event no
email and no deletion call appears in the trace, while the handler still
acknowledges. -/
theorem empty_transcript_aborts_witness :
    w10.transcribeOutcome = FetchOutcome.ok rawEmpty
    ∧ (analyzeDeepgramResponse rawEmpty
        (some (jsOrDefault (p8 "From") "Unknown"))).transcript = some ""
    ∧ (Call.emailSend ∉ (handleRecordingComplete env0 w10 p8).snd
        ∧ (∀ s, Call.deleteReq s ∉ (handleRecordingComplete env0 w10 p8).snd)
        ∧ (handleRecordingComplete env0 w10 p8).fst = respondWithEmptyTwiML) :=
  ⟨rfl, rfl, empty_transcript_aborts env0 w10 p8 rawEmpty rfl rfl⟩

/-! Claim C3: quality metrics. -/

/-- C3: on a result with at least one channel the assembler reports the
rounded arithmetic mean of the flat word-list confidences (0 with no
words), the rounded fraction of words with confidence below 0.7 (0 with no
words), and the number of distinct (defaulted) speaker ids across
paragraphs; rounding maps the specification's example mean to 0.947 and a
zero fraction to 0. -/
theorem assembler_quality_metrics (raw : DGResponse) (sid : Option String)
    (h : raw.channels ≠ []) :
    (analyzeDeepgramResponse raw sid).averageWordConfidence
      = some (roundTo3 (if ((wordsOf raw).map (fun w => w.confidence.getD 0)) = [] then 0
          else ((wordsOf raw).map (fun w => w.confidence.getD 0)).sum
            / (((wordsOf raw).map (fun w => w.confidence.getD 0)).length : ℚ)))
    ∧ (analyzeDeepgramResponse raw sid).uncertainWordPercentage
      = some (roundTo3 (if ((wordsOf raw).map (fun w => w.confidence.getD 0)) = [] then 0
          else ((((wordsOf raw).map (fun w => w.confidence.getD 0)).filter
                (fun c => decide (c < 7/10))).length : ℚ)
            / (((wordsOf raw).map (fun w => w.confidence.getD 0)).length : ℚ)))
    ∧ (analyzeDeepgramResponse raw sid).speakerAmount
      = some (((paragraphsOf raw).map (fun pg => pg.speaker.getD 0)).toFinset.card)
    ∧ roundTo3 (((9:ℚ)/10 + 95/100 + 99/100) / 3) = 947/1000
    ∧ roundTo3 ((0:ℚ)) = 0 := by
  refine ⟨?_, ?_, ?_, by with_unfolding_all rfl, by with_unfolding_all rfl⟩
  · simp only [analyzeDeepgramResponse, if_neg h]
    rcases hl : (wordsOf raw).map (fun w => w.confidence.getD 0) with _ | ⟨c, cs⟩
    · simp [hl]
    · simp [hl]
  · simp only [analyzeDeepgramResponse, if_neg h]
    rcases hl : (wordsOf raw).map (fun w => w.confidence.getD 0) with _ | ⟨c, cs⟩
    · simp [hl]
    · simp [hl]
  · simp only [analyzeDeepgramResponse, if_neg h]
    rw [List.card_toFinset]

/-- One word of confidence 0.9. -/
def word9 : DGWord := { confidence := some ((9:ℚ)/10) }

/-- One word of confidence 0.95. -/
def word95 : DGWord := { confidence := some ((95:ℚ)/100) }

/-- One word of confidence 0.99. -/
def word99 : DGWord := { confidence := some ((99:ℚ)/100) }

/-- An alternative carrying the three example confidences and one
speaker-0 paragraph. -/
def alt3 : DGAlternative :=
  { words := some [word9, word95, word99],
    paragraphs := some [{ speaker := some 0, sentences := some [] }] }

/-- A one-channel response with the three example word confidences. -/
def raw3 : DGResponse := { channels := [{ alternatives := some [alt3] }] }

/-- Witness for assembler_quality_metrics on the specification's example
confidences 0.9, 0.95, 0.99: mean 0.947, uncertain fraction 0, one
speaker. -/
theorem assembler_quality_metrics_witness :
    raw3.channels ≠ []
    ∧ (analyzeDeepgramResponse raw3 none).averageWordConfidence = some (947/1000)
    ∧ (analyzeDeepgramResponse raw3 none).uncertainWordPercentage = some 0
    ∧ (analyzeDeepgramResponse raw3 none).speakerAmount = some 1 := by
  have h := assembler_quality_metrics raw3 none (by simp [raw3])
  refine ⟨by simp [raw3], ?_, ?_, ?_⟩
  · rw [h.1]
    with_unfolding_all rfl
  · rw [h.2.1]
    with_unfolding_all rfl
  · rw [h.2.2.1]
    with_unfolding_all rfl

/-! Claim C2: speaker-label emission rule. -/

/-- One step of the flattened sentence fold, pairing each sentence with
its paragraph's speaker id. -/
def flatStep (sid : Option String) (st : String × Int) (x : Nat × DGSentence) : String × Int :=
  sentenceStep sid x.fst st x.snd

/-- For non-negative start times the source timestamp (JavaScript
truncating remainder) agrees with the spec timestamp (floor remainder). -/
theorem timestampOf_eq_spec (start : ℚ) (h : 0 ≤ start) :
    timestampOf start = specTimestamp start := by
  unfold timestampOf specTimestamp jsMod jsTrunc
  rw [if_pos (div_nonneg h (by norm_num))]

/-- For non-negative start times the source label line agrees with the
spec label line. -/
theorem labelLine_eq_spec (label : String) (start : ℚ) (h : 0 ≤ start) :
    labelLine label start = specLabelLine label start := by
  unfold labelLine specLabelLine
  rw [timestampOf_eq_spec start h]

/-- The nested paragraph/sentence fold of the source equals a single fold
over the flattened speaker-tagged sentence sequence. -/
theorem foldl_flatten (sid : Option String) :
    ∀ (pgs : List DGParagraph) (st : String × Int),
      pgs.foldl (paragraphStep sid) st = (flattenSentences pgs).foldl (flatStep sid) st := by
  intro pgs
  induction pgs with
  | nil => intro st; rfl
  | cons pg pgs ih =>
    intro st
    show pgs.foldl (paragraphStep sid) (paragraphStep sid st pg) = _
    rw [ih]
    have hfl : flattenSentences (pg :: pgs)
        = ((pg.sentences.getD []).map (fun sn => (pg.speaker.getD 0, sn)))
          ++ flattenSentences pgs := by
      simp [flattenSentences]
    rw [hfl, List.foldl_append]
    congr 1
    unfold paragraphStep
    rw [List.foldl_map]
    rfl

/-- The accumulated fold over the flat sentence list renders exactly the
spec's transcript: a label is emitted exactly on a change of speaker
relative to the previous sentence (the integer -1 of the source playing
the role of the spec's none sentinel). -/
theorem foldl_spec (sid : Option String) :
    ∀ (l : List (Nat × DGSentence)) (acc : String) (po : Option Nat),
      (∀ x ∈ l, 0 ≤ x.snd.start) →
      (l.foldl (flatStep sid) (acc, intOfPrev po)).fst = acc ++ specRender sid po l := by
  intro l
  induction l with
  | nil =>
    intro acc po _
    show acc = acc ++ specRender sid po []
    have hemp : acc ++ ("" : String) = acc := by
      apply String.ext
      simp [String.data_append]
    rw [specRender, hemp]
  | cons x rest ih =>
    intro acc po h
    rcases x with ⟨sp, sn⟩
    have hstart : 0 ≤ sn.start := by
      have := h (sp, sn) (List.mem_cons_self _ _)
      simpa using this
    have hrest : ∀ y ∈ rest, 0 ≤ y.snd.start := fun y hy => h y (List.mem_cons_of_mem _ hy)
    show (rest.foldl (flatStep sid) (flatStep sid (acc, intOfPrev po) (sp, sn))).fst = _
    rcases po with _ | pv
    · have hcond : ((sp : Int) ≠ intOfPrev none) := by
        simp only [intOfPrev]
        omega
      have hstep : flatStep sid (acc, intOfPrev none) (sp, sn)
          = (acc ++ labelLine (speakerLabelOf sid sp) sn.start ++ sn.text ++ " ",
              intOfPrev (some sp)) := by
        unfold flatStep sentenceStep
        rw [if_pos hcond]
        rfl
      rw [hstep, ih _ (some sp) hrest]
      rw [specRender, if_neg (by simp), labelLine_eq_spec _ _ hstart]
      apply String.ext
      simp [String.data_append, List.append_assoc]
    · by_cases hsp : pv = sp
      · subst hsp
        have hcond : ¬ ((pv : Int) ≠ intOfPrev (some pv)) := by
          simp [intOfPrev]
        have hstep : flatStep sid (acc, intOfPrev (some pv)) (pv, sn)
            = (acc ++ sn.text ++ " ", intOfPrev (some pv)) := by
          unfold flatStep sentenceStep
          rw [if_neg hcond]
        rw [hstep, ih _ (some pv) hrest]
        rw [specRender, if_pos rfl]
        apply String.ext
        simp [String.data_append, List.append_assoc]
      · have hcond : ((sp : Int) ≠ intOfPrev (some pv)) := by
          simp only [intOfPrev, ne_eq, Int.natCast_inj]
          exact fun hq => hsp hq.symm
        have hstep : flatStep sid (acc, intOfPrev (some pv)) (sp, sn)
            = (acc ++ labelLine (speakerLabelOf sid sp) sn.start
                ++ sn.text ++ " ", intOfPrev (some sp)) := by
          unfold flatStep sentenceStep
          rw [if_pos hcond]
          rfl
        rw [hstep, ih _ (some sp) hrest]
        rw [specRender, if_neg (by simp [hsp]), labelLine_eq_spec _ _ hstart]
        apply String.ext
        simp [String.data_append, List.append_assoc]

/-- C2: the source transcript loop emits a new speaker-label line exactly
when the sentence's paragraph speaker id differs from that of the
immediately preceding sentence (the -1 sentinel makes the first sentence
always labelled): it renders the same string as the spec-worded
per-sentence rule over the flattened sentence sequence; and the label's
timestamp renders start time 125.7 seconds as 2:05. -/
theorem assembler_speaker_label_rule (sid : Option String) (paragraphs : List DGParagraph)
    (h : ∀ pg ∈ paragraphs, ∀ sn ∈ pg.sentences.getD [], 0 ≤ sn.start) :
    buildTranscript sid paragraphs = specRender sid none (flattenSentences paragraphs)
    ∧ timestampOf ((1257 : ℚ)/10) = "2:05" := by
  constructor
  · have hflat : ∀ x ∈ flattenSentences paragraphs, 0 ≤ x.snd.start := by
      intro x hx
      simp only [flattenSentences, List.mem_flatMap, List.mem_map] at hx
      rcases hx with ⟨pg, hpg, sn, hsn, rfl⟩
      exact h pg hpg sn hsn
    have h1 : buildTranscript sid paragraphs
        = ((flattenSentences paragraphs).foldl (flatStep sid) ("", -1)).fst := by
      unfold buildTranscript
      rw [foldl_flatten]
    have h2 : ((flattenSentences paragraphs).foldl (flatStep sid)
          ("", intOfPrev none)).fst
        = "" ++ specRender sid none (flattenSentences paragraphs) :=
      foldl_spec sid (flattenSentences paragraphs) "" none hflat
    have h3 : ("" : String) ++ specRender sid none (flattenSentences paragraphs)
        = specRender sid none (flattenSentences paragraphs) := by
      apply String.ext
      simp [String.data_append]
    rw [h1]
    exact h2.trans h3
  · with_unfolding_all rfl

/-- A first paragraph of two speaker-0 sentences. -/
def paraA : DGParagraph :=
  { speaker := some 0,
    sentences := some [{ text := "Hello.", start := 0 }, { text := "Again.", start := 3 }] }

/-- A second paragraph with one speaker-1 sentence starting at 125.7s. -/
def paraB : DGParagraph :=
  { speaker := some 1, sentences := some [{ text := "Hi.", start := (1257 : ℚ)/10 }] }

/-- Witness for assembler_speaker_label_rule on a concrete two-speaker
sequence with non-negative start times. -/
theorem assembler_speaker_label_rule_witness :
    (∀ pg ∈ [paraA, paraB], ∀ sn ∈ pg.sentences.getD [], 0 ≤ sn.start)
    ∧ buildTranscript none [paraA, paraB]
        = specRender none none (flattenSentences [paraA, paraB])
    ∧ timestampOf ((1257 : ℚ)/10) = "2:05" := by
  have hh : ∀ pg ∈ [paraA, paraB], ∀ sn ∈ pg.sentences.getD [], 0 ≤ sn.start := by
    intro pg hpg sn hsn
    simp only [List.mem_cons, List.mem_singleton] at hpg
    rcases hpg with rfl | rfl | hF
    · simp only [paraA, Option.getD_some, List.mem_cons, List.mem_singleton,
        List.not_mem_nil, or_false] at hsn
      rcases hsn with rfl | rfl <;> norm_num
    · simp only [paraB, Option.getD_some, List.mem_cons, List.not_mem_nil,
        or_false] at hsn
      subst hsn
      norm_num
    · exact absurd hF (List.not_mem_nil pg)
  have h := assembler_speaker_label_rule none [paraA, paraB] hh
  exact ⟨hh, h.1, h.2⟩
